import Mathlib

/-!
Verification of the PulseLibre device session manager (src/App.js) against its
natural-language specification.  The JavaScript code is shallowly embedded:
pure functions become Lean functions over exact rationals (JavaScript doubles
are modelled as exact `ℚ` values plus an explicit NaN constructor, adequate for
the small decimal constants this program manipulates), React state updates
become explicit state passing on a record type, and each React render's
captured `const` bindings (the closure environment of the handlers defined in
that render) are passed explicitly as a "snapshot" argument separate from the
live state, which is how function components in React actually behave: a
callback registered in one render keeps reading that render's values.
-/

namespace PulseLibre

/-- A JavaScript number as used by this program: either NaN or an exact
rational.  Infinities are not modelled; no operation in the embedded code can
produce them on the inputs it receives. -/
inductive JSNum where
  | nan : JSNum
  | num : ℚ → JSNum
deriving DecidableEq, Repr

/-- JavaScript `a >= b`; any comparison with NaN is false. -/
def jsGe : JSNum → JSNum → Bool
  | JSNum.num a, JSNum.num b => decide (b ≤ a)
  | _, _ => false

/-- JavaScript `a <= b`; any comparison with NaN is false. -/
def jsLe : JSNum → JSNum → Bool
  | JSNum.num a, JSNum.num b => decide (a ≤ b)
  | _, _ => false

/-- JavaScript subtraction; NaN propagates. -/
def jsSub : JSNum → JSNum → JSNum
  | JSNum.num a, JSNum.num b => JSNum.num (a - b)
  | _, _ => JSNum.nan

/-- JavaScript multiplication; NaN propagates. -/
def jsMul : JSNum → JSNum → JSNum
  | JSNum.num a, JSNum.num b => JSNum.num (a * b)
  | _, _ => JSNum.nan

/-- JavaScript division; NaN propagates.  Division by zero is mapped to NaN
(JavaScript would yield an infinity, but every divisor in the embedded code is
the nonzero constant `3.95 - 2.5`). -/
def jsDiv : JSNum → JSNum → JSNum
  | JSNum.num a, JSNum.num b => if b = 0 then JSNum.nan else JSNum.num (a / b)
  | _, _ => JSNum.nan

/-- JavaScript `Math.round`: floor of `x + 1/2` (round half towards positive
infinity) on numbers, NaN on NaN. -/
def jsRound : JSNum → JSNum
  | JSNum.nan => JSNum.nan
  | JSNum.num q => JSNum.num ((⌊q + 1/2⌋ : ℤ) : ℚ)

/-- JavaScript number-to-string coercion, restricted to the values this
program prints: NaN prints as "NaN", an integer-valued number prints its
integer digits.  (Non-integer rationals never reach a template literal in the
embedded code, so their rendering is irrelevant; we print `num/den`.) -/
def jsNumToString : JSNum → String
  | JSNum.nan => "NaN"
  | JSNum.num q => if q.den = 1 then toString q.num else toString q.num ++ "/" ++ toString q.den

/-- One decimal digit value, when the character is a digit. -/
def digitVal (c : Char) : ℕ := c.toNat - '0'.toNat

/-- Consume a maximal run of leading decimal digits, returning their values
and the rest of the input. -/
def parseDigits : List Char → List ℕ × List Char
  | [] => ([], [])
  | c :: cs =>
    if c.isDigit then
      let (ds, r) := parseDigits cs
      (digitVal c :: ds, r)
    else ([], c :: cs)

/-- The natural number denoted by a digit run (most significant first). -/
def digitsVal (ds : List ℕ) : ℕ := ds.foldl (fun a d => 10 * a + d) 0

/-- The fractional value denoted by a digit run read after a decimal point. -/
def fracVal (ds : List ℕ) : ℚ := (digitsVal ds : ℚ) / (10 ^ ds.length)

/-- Model of the JavaScript `parseFloat` builtin on the character list of its
argument, restricted to the grammar this program can receive: optional leading
whitespace, optional sign, decimal digits with an optional fractional part.
Exponents and "Infinity" are not modelled.  When no digit is found the result
is NaN, exactly as `parseFloat` returns NaN on unparseable input instead of
throwing. -/
def parseFloatChars (cs : List Char) : JSNum :=
  let cs1 := cs.dropWhile Char.isWhitespace
  let signAndRest : ℚ × List Char :=
    match cs1 with
    | '-' :: r => (-1, r)
    | '+' :: r => (1, r)
    | r => (1, r)
  let (ip, afterInt) := parseDigits signAndRest.2
  let fp : List ℕ :=
    match afterInt with
    | '.' :: r => (parseDigits r).1
    | _ => []
  if ip.isEmpty ∧ fp.isEmpty then JSNum.nan
  else JSNum.num (signAndRest.1 * ((digitsVal ip : ℚ) + fracVal fp))

/-- JavaScript `parseFloat` on a string. -/
def parseFloat (s : String) : JSNum := parseFloatChars s.data

/-- Battery voltage at 100% (App.js line 39). -/
def BATTERY_FULL_VOLTAGE : ℚ := 3.95

/-- Battery voltage at 0% (App.js line 40). -/
def BATTERY_EMPTY_VOLTAGE : ℚ := 2.5

/-- Keepalive period in milliseconds (App.js line 43). -/
def KEEPALIVE_INTERVAL : ℕ := 10000

/-- Status poll period in milliseconds (App.js line 44); a single constant,
used whenever a device is connected. -/
def STATUS_POLL_INTERVAL : ℕ := 30000

/-- `calculateBatteryPercentage` (App.js lines 430-440): 100 at or above the
full voltage, 0 at or below the empty voltage, otherwise
`Math.round(((voltage - EMPTY) / (FULL - EMPTY)) * 100)`.  NaN input falls
through both comparisons (NaN comparisons are false) and propagates through
the arithmetic to a NaN result. -/
def calculateBatteryPercentage (voltage : JSNum) : JSNum :=
  if jsGe voltage (JSNum.num BATTERY_FULL_VOLTAGE) then JSNum.num 100
  else if jsLe voltage (JSNum.num BATTERY_EMPTY_VOLTAGE) then JSNum.num 0
  else
    jsRound (jsMul
      (jsDiv (jsSub voltage (JSNum.num BATTERY_EMPTY_VOLTAGE))
        (jsSub (JSNum.num BATTERY_FULL_VOLTAGE) (JSNum.num BATTERY_EMPTY_VOLTAGE)))
      (JSNum.num 100))

/-- The telemetry fields touched by the notification handler: the battery
display string (`setBattery`) and the charging display string
(`setCharging`), both null when unknown. -/
structure Telemetry where
  battery : Option String
  charging : Option String
deriving DecidableEq, Repr

/-- JavaScript `String.prototype.trim` on a character list. -/
def jsTrim (cs : List Char) : List Char :=
  ((cs.dropWhile Char.isWhitespace).reverse.dropWhile Char.isWhitespace).reverse

/-- The portion of the input before the next occurrence of the separator
"Batt:" (or the whole input when the separator does not occur again). -/
def takeUntilBatt : List Char → List Char
  | [] => []
  | c :: cs => if ("Batt:".data).isPrefixOf (c :: cs) then [] else c :: takeUntilBatt cs

/-- Element 1 of `trimmedData.split('Batt:')` when `trimmedData` starts with
"Batt:": JavaScript split on a string separator cuts at every occurrence, so
element 0 is the empty string and element 1 is the text between the first and
second occurrences of "Batt:" (through to the end when there is no second
occurrence).  The five dropped characters are the leading "Batt:". -/
def battSegment (cs : List Char) : List Char := takeUntilBatt (cs.drop 5)

/-- The battery branch of `handleNotification` (App.js lines 396-406): when
the trimmed decoded text starts with "Batt:", parse the remainder as a
voltage and store the computed percentage string.  The source wraps this in
try/catch, but neither `parseFloat` nor `calculateBatteryPercentage` can
throw — `parseFloat` returns NaN on garbage — so the embedding has no
exception path and the catch block is unreachable in the source. -/
def battBranch (decodedData : String) (t : Telemetry) : Telemetry :=
  let trimmedData := jsTrim decodedData.data
  if ("Batt:".data).isPrefixOf trimmedData then
    let batteryVoltage := parseFloatChars (battSegment trimmedData)
    let batteryPercentage := calculateBatteryPercentage batteryVoltage
    { t with battery := some (jsNumToString batteryPercentage ++ "%") }
  else t

/-- The charging branch of `handleNotification` (App.js lines 410-422): a
raw frame of length at least 3 starting with bytes 0x75 0x01 sets the
charging value from its third byte when that byte is ASCII '0' or '1'; any
other third byte only logs a warning and leaves the value unchanged. -/
def chargingBranch (rawBytes : List ℕ) (t : Telemetry) : Telemetry :=
  if 3 ≤ rawBytes.length ∧ rawBytes.getD 0 0 = 0x75 ∧ rawBytes.getD 1 0 = 0x01 then
    if rawBytes.getD 2 0 = 0x30 then { t with charging := some "Not Charging" }
    else if rawBytes.getD 2 0 = 0x31 then { t with charging := some "Charging" }
    else t
  else t

/-- `handleNotification` (App.js lines 388-427): the battery check on the
decoded UTF-8 text, then the independent charging check on the raw bytes. -/
def handleNotification (decodedData : String) (rawBytes : List ℕ) (t : Telemetry) : Telemetry :=
  chargingBranch rawBytes (battBranch decodedData t)

/-- Round half away from zero, the rounding named by the specification for
the battery model.  On the nonnegative arguments produced by the battery
formula it coincides with JavaScript `Math.round`. -/
def roundHalfAwayFromZero (q : ℚ) : ℤ := if 0 ≤ q then ⌊q + 1/2⌋ else -⌊-q + 1/2⌋

/-- The state of the `App` component (src/App.js): the `useState` variables
`timer` (minutes), `strength`, `battery`, `charging`, `scanning`,
`connectedDevice`, `isRunning`, `remainingTime` (seconds), together with the
mutable refs modelled as liveness flags for each interval/scan
(`intervalRef`, `keepaliveRef`, `statusPollRef`, and the manager-level scan
started by `startDeviceScan`), plus the observable output streams: the
commands written to the device (`sendCommand`) and the alert titles surfaced
(`Alert.alert`).  The device handle carries no data the embedded handlers
inspect, so it is `Option Unit`. -/
structure AppSt where
  timer : ℕ
  strength : ℤ
  battery : Option String
  charging : Option String
  scanning : Bool
  connectedDevice : Option Unit
  isRunning : Bool
  remainingTime : ℕ
  intervalActive : Bool
  keepaliveActive : Bool
  statusPollActive : Bool
  scanActive : Bool
  sent : List String
  alerts : List String
deriving DecidableEq, Repr

/-- `handleDisconnection` (App.js lines 112-137): nulls the connected device
and both telemetry values, clears the keepalive and status-poll intervals,
and deliberately leaves `isRunning` and `remainingTime` untouched ("Don't
stop the timer - we'll resume when reconnected").  It reads only refs, never
render-captured state, so it takes no snapshot argument.  The delayed
`scanForDevices()` it schedules is applied separately by the caller of this
model, matching the 1-second `setTimeout`. -/
def handleDisconnection (live : AppSt) : AppSt :=
  { live with
    connectedDevice := none, battery := none, charging := none,
    keepaliveActive := false, statusPollActive := false }

/-- `scanForDevices` (App.js lines 269-304).  `snap` is the render whose
closure is being invoked: the guard reads that render's `scanning` and
`connectedDevice` consts.  On passing the guard it flips the scanning flag
and starts the manager-level scan. -/
def scanForDevices (snap live : AppSt) : AppSt :=
  if snap.scanning || snap.connectedDevice.isSome then live
  else { live with scanning := true, scanActive := true }

/-- The body of the 10-second `setTimeout` registered by `scanForDevices`
(App.js lines 294-303).  The callback closes over the same render snapshot
`snap` as the `scanForDevices` call that registered it, so `if (scanning)`
tests `snap.scanning` — the value captured when the scan was started — not
the live flag. -/
def scanTimeout (snap live : AppSt) : AppSt :=
  if snap.scanning then
    { live with
      scanActive := false, scanning := false,
      alerts := live.alerts ++ ["Scan Timeout"] }
  else live

/-- `queryDeviceStatus` (App.js lines 358-362): sends the battery query then
the charging query, sequentially. -/
def queryDeviceStatus (live : AppSt) : AppSt :=
  { live with sent := live.sent ++ ["Q\n", "u\n"] }

/-- The success path of `connectToDevice` (App.js lines 307-342): store the
connected handle, subscribe, run the initial status query pair, then — only
when the snapshot captured by this closure has `isRunning` true and
`remainingTime` positive — replay the activate command and the snapshot's
strength command.  `snap` is the render in whose scope this `connectToDevice`
closure was created. -/
def connectToDevice (snap live : AppSt) : AppSt :=
  let live1 := queryDeviceStatus { live with connectedDevice := some () }
  if snap.isRunning && decide (0 < snap.remainingTime) then
    { live1 with sent := live1.sent ++ ["D\n", toString snap.strength ++ "\n"] }
  else live1

/-- The matching-device branch of the scan callback (App.js lines 285-290):
stop the manager scan, clear the scanning flag, and connect.  The
`connectToDevice` invoked is the one from the same render snapshot. -/
def deviceFound (snap live : AppSt) : AppSt :=
  connectToDevice snap { live with scanActive := false, scanning := false }

/-- `handleStart` (App.js lines 471-484): refuses when no device is
connected; otherwise sets `isRunning`, arms `remainingTime = timer * 60`
seconds, and sends the activate command followed by the strength command.
Invoked directly from the current render, so its captured consts coincide
with the live state. -/
def handleStart (st : AppSt) : AppSt :=
  if st.connectedDevice.isNone then st
  else
    { st with
      isRunning := true, remainingTime := st.timer * 60,
      sent := st.sent ++ ["D\n", toString st.strength ++ "\n"] }

/-- `handleStop` (App.js lines 487-497): clears `isRunning` and
`remainingTime`, and when the snapshot's `connectedDevice` is present sends
the deactivate command and re-queries status.  `snap` is the render whose
closure invokes it (for the countdown path, the render at which the countdown
effect started). -/
def handleStop (snap live : AppSt) : AppSt :=
  { live with
    isRunning := false, remainingTime := 0,
    sent := live.sent ++ (if snap.connectedDevice.isSome then ["0\n", "Q\n", "u\n"] else []) }

/-- The countdown `useEffect` body (App.js lines 500-514): when `isRunning`
and time remains, arm the 1-second interval. -/
def startCountdown (st : AppSt) : AppSt :=
  if st.isRunning && decide (0 < st.remainingTime) then { st with intervalActive := true }
  else st

/-- One firing of the countdown interval (App.js lines 503-513): with the
functional updater, `prevTime ≤ 1` clears the interval and invokes
`handleStop` (whose closure is the render snapshot `snap` at which the effect
ran), otherwise the remaining time drops by one. -/
def tick (snap live : AppSt) : AppSt :=
  if live.intervalActive then
    if live.remainingTime ≤ 1 then
      handleStop snap { live with intervalActive := false, remainingTime := 0 }
    else { live with remainingTime := live.remainingTime - 1 }
  else live

/-- `handleStrengthChange` (App.js lines 524-532): stores the given value
unconditionally — there is no clamping inside the handler — and, when
`isRunning` and a device is connected, also sends the value as a strength
command.  Invoked from the current render. -/
def handleStrengthChange (value : ℤ) (st : AppSt) : AppSt :=
  { st with
    strength := value,
    sent := st.sent ++
      (if st.isRunning && st.connectedDevice.isSome then [toString value ++ "\n"] else []) }

/-- Argument computed by the intensity decrement button (App.js line 632):
`Math.max(1, strength - 1)`. -/
def strengthDecArg (s : ℤ) : ℤ := max 1 (s - 1)

/-- Argument computed by the intensity increment button (App.js line 641):
`Math.min(9, strength + 1)`. -/
def strengthIncArg (s : ℤ) : ℤ := min 9 (s + 1)

/-- A disconnected, idle app state: the component's initial state after
mount (App.js lines 48-56; default timer 10 minutes, default strength 5). -/
def idleDisconnectedSt : AppSt :=
  { timer := 10, strength := 5, battery := none, charging := none,
    scanning := false, connectedDevice := none, isRunning := false,
    remainingTime := 0, intervalActive := false, keepaliveActive := false,
    statusPollActive := false, scanActive := false, sent := [], alerts := [] }

/-- Modelled from the spec: the polling variant of the App (the repository
iteration whose Jest test declares `POLLING_INTERVAL_RUNNING`,
`POLLING_INTERVAL_IDLE` and `MAX_RETRY_ATTEMPTS`) is not among the sources;
only its test is.  Per that test, the poll period while a session is running
is 30000 ms. -/
def POLLING_INTERVAL_RUNNING : ℕ := 30000

/-- Modelled from the spec: poll period while idle in the polling variant,
60000 ms per that variant's test. -/
def POLLING_INTERVAL_IDLE : ℕ := 60000

/-- Modelled from the spec: bound on consecutive status-poll failures in the
polling variant, 3 per that variant's test. -/
def MAX_RETRY_ATTEMPTS : ℕ := 3

/-- Modelled from the spec: "Status-poll interval depends on `running`:
shorter while an active session is in progress, longer while idle." -/
def statusPollIntervalFor (running : Bool) : ℕ :=
  if running then POLLING_INTERVAL_RUNNING else POLLING_INTERVAL_IDLE

/-- Modelled from the spec: the polling variant's retry state — the bounded
Retry Counter, whether status polling is still live, and how many
`PollExhausted` (connectivity-degraded) conditions have been surfaced. -/
structure PollState where
  retryCount : ℕ
  polling : Bool
  pollExhaustedCount : ℕ
deriving DecidableEq, Repr

/-- Modelled from the spec: one status-poll exchange in the polling variant.
While polling is stopped nothing happens; a successful exchange resets the
Retry Counter to 0; a failure increments it, and when the incremented counter
reaches `MAX_RETRY_ATTEMPTS` polling stops and a single `PollExhausted`
condition is surfaced. -/
def pollStep (s : PollState) (success : Bool) : PollState :=
  if s.polling = false then s
  else if success then { s with retryCount := 0 }
  else if MAX_RETRY_ATTEMPTS ≤ s.retryCount + 1 then
    { retryCount := s.retryCount + 1, polling := false,
      pollExhaustedCount := s.pollExhaustedCount + 1 }
  else { s with retryCount := s.retryCount + 1 }

/-- Modelled from the spec: a sequence of poll outcomes processed in order. -/
def runPoll (outcomes : List Bool) (s : PollState) : PollState :=
  outcomes.foldl pollStep s

/-- Modelled from the spec: the retry state when polling starts. -/
def pollInit : PollState :=
  { retryCount := 0, polling := true, pollExhaustedCount := 0 }

theorem battBranch_charging (d : String) (t : Telemetry) :
    (battBranch d t).charging = t.charging := by
  simp only [battBranch]
  split <;> rfl

theorem pollStep_inv (s : PollState) (b : Bool)
    (h : (s.polling = true → s.retryCount < MAX_RETRY_ATTEMPTS) ∧
      s.retryCount ≤ MAX_RETRY_ATTEMPTS) :
    ((pollStep s b).polling = true → (pollStep s b).retryCount < MAX_RETRY_ATTEMPTS) ∧
      (pollStep s b).retryCount ≤ MAX_RETRY_ATTEMPTS := by
  obtain ⟨h1, h2⟩ := h
  unfold pollStep MAX_RETRY_ATTEMPTS at *
  split_ifs <;> simp_all <;> omega

theorem runPoll_inv (l : List Bool) (s : PollState)
    (h : (s.polling = true → s.retryCount < MAX_RETRY_ATTEMPTS) ∧
      s.retryCount ≤ MAX_RETRY_ATTEMPTS) :
    ((runPoll l s).polling = true → (runPoll l s).retryCount < MAX_RETRY_ATTEMPTS) ∧
      (runPoll l s).retryCount ≤ MAX_RETRY_ATTEMPTS := by
  induction l generalizing s with
  | nil => exact h
  | cons b rest ih => exact ih (pollStep s b) (pollStep_inv s b h)

theorem runPoll_stopped (l : List Bool) (s : PollState) (h : s.polling = false) :
    runPoll l s = s := by
  induction l generalizing s with
  | nil => rfl
  | cons b rest ih =>
    have hstep : pollStep s b = s := by simp [pollStep, h]
    show runPoll rest (pollStep s b) = s
    rw [hstep]
    exact ih s h

/-- C1: every poll failure increments the Retry Counter, any success resets
it to 0, the counter never exceeds `MAX_RETRY_ATTEMPTS`, and the
`MAX_RETRY_ATTEMPTS`-th consecutive failure stops status polling and surfaces
exactly one `PollExhausted` condition — once stopped the cycle is terminal (no
further retries, no further conditions, no crash). -/
theorem pollRetryBounded :
    (∀ s : PollState, s.polling = true →
      (pollStep s true).retryCount = 0 ∧ (pollStep s true).polling = true) ∧
    (∀ s : PollState, s.polling = true →
      (pollStep s false).retryCount = s.retryCount + 1) ∧
    (∀ s : PollState, s.polling = true → s.retryCount + 1 = MAX_RETRY_ATTEMPTS →
      (pollStep s false).polling = false ∧
      (pollStep s false).pollExhaustedCount = s.pollExhaustedCount + 1) ∧
    (∀ (s : PollState) (b : Bool), s.polling = false → pollStep s b = s) ∧
    (∀ l : List Bool, (runPoll l pollInit).retryCount ≤ MAX_RETRY_ATTEMPTS) ∧
    (runPoll [false, false, false] pollInit).polling = false ∧
    (runPoll [false, false, false] pollInit).pollExhaustedCount = 1 ∧
    (∀ l : List Bool,
      runPoll ([false, false, false] ++ l) pollInit = runPoll [false, false, false] pollInit) := by
  refine ⟨?_, ?_, ?_, ?_, ?_, by decide, by decide, ?_⟩
  · intro s h
    simp [pollStep, h]
  · intro s h
    simp only [pollStep, h]
    split_ifs <;> simp_all
  · intro s h hmax
    have hc : MAX_RETRY_ATTEMPTS ≤ s.retryCount + 1 := le_of_eq hmax.symm
    simp [pollStep, h, hc]
  · intro s b h
    simp [pollStep, h]
  · intro l
    exact (runPoll_inv l pollInit (by simp [pollInit, MAX_RETRY_ATTEMPTS])).2
  · intro l
    have happ : runPoll ([false, false, false] ++ l) pollInit =
        runPoll l (runPoll [false, false, false] pollInit) := by
      simp [runPoll, List.foldl_append]
    rw [happ]
    exact runPoll_stopped l _ (by decide)

/-- Witness for C1 at concrete retry states: a success from count 1 resets to
0, and the third consecutive failure (count 2 → 3) stops polling. -/
theorem pollRetryBounded_witness :
    (pollStep { retryCount := 1, polling := true, pollExhaustedCount := 0 } true).retryCount = 0 ∧
    (pollStep { retryCount := 2, polling := true, pollExhaustedCount := 0 } false).polling = false := by
  exact ⟨(pollRetryBounded.1 { retryCount := 1, polling := true, pollExhaustedCount := 0 } rfl).1,
    (pollRetryBounded.2.2.1 { retryCount := 2, polling := true, pollExhaustedCount := 0 } rfl rfl).1⟩

/-- C4: the status-poll period used while a session is running is strictly
shorter than the one used while idle (30000 ms versus 60000 ms in the polling
variant). -/
theorem pollIntervalRunningShorter :
    statusPollIntervalFor true < statusPollIntervalFor false := by decide

/-- C10: the disconnection handler resets the whole telemetry snapshot to
unknown — connected device, battery and charging all become null — and clears
both the keep-alive interval and the status-poll interval, for every state it
can run in; last-known values are therefore never retained across a
disconnect. -/
theorem disconnectResetsTelemetry (st : AppSt) :
    (handleDisconnection st).connectedDevice = none ∧
    (handleDisconnection st).battery = none ∧
    (handleDisconnection st).charging = none ∧
    (handleDisconnection st).keepaliveActive = false ∧
    (handleDisconnection st).statusPollActive = false :=
  ⟨rfl, rfl, rfl, rfl, rfl⟩

/-- C3 counter-evidence: starting a scan from the disconnected idle render
(whose captured `scanning` const is necessarily false, since the guard at the
top of `scanForDevices` requires it) sets the live scanning flag, but the
10-second timeout callback closes over that same render's `scanning = false`,
so when it fires with no device found it changes nothing: the manager scan
stays active, the scanning flag stays true, and no scan-timeout alert is
surfaced. -/
theorem scanTimeoutStaleClosure :
    (scanForDevices idleDisconnectedSt idleDisconnectedSt).scanning = true ∧
    (scanForDevices idleDisconnectedSt idleDisconnectedSt).scanActive = true ∧
    scanTimeout idleDisconnectedSt (scanForDevices idleDisconnectedSt idleDisconnectedSt) =
      scanForDevices idleDisconnectedSt idleDisconnectedSt ∧
    (scanTimeout idleDisconnectedSt (scanForDevices idleDisconnectedSt idleDisconnectedSt)).alerts = [] := by
  decide

/-- C5 counter-evidence: with a session running (started after the device was
connected from the idle render, so the reconnect chain's closures captured
`isRunning = false`, `remainingTime = 0`), a disconnect event preserves
`isRunning = true` and `remainingSeconds = 100` as claimed, and the automatic
reconnection succeeds — but the resume branch tests the captured snapshot, so
the activate command "D\n" is never resent. -/
theorem disconnectPreservesButNoResume :
    (handleDisconnection
      { idleDisconnectedSt with
        connectedDevice := some (), isRunning := true, remainingTime := 100,
        intervalActive := true, keepaliveActive := true, statusPollActive := true }).isRunning = true ∧
    (handleDisconnection
      { idleDisconnectedSt with
        connectedDevice := some (), isRunning := true, remainingTime := 100,
        intervalActive := true, keepaliveActive := true, statusPollActive := true }).remainingTime = 100 ∧
    (deviceFound idleDisconnectedSt (scanForDevices idleDisconnectedSt (handleDisconnection
      { idleDisconnectedSt with
        connectedDevice := some (), isRunning := true, remainingTime := 100,
        intervalActive := true, keepaliveActive := true, statusPollActive := true }))).connectedDevice = some () ∧
    "D\n" ∉ (deviceFound idleDisconnectedSt (scanForDevices idleDisconnectedSt (handleDisconnection
      { idleDisconnectedSt with
        connectedDevice := some (), isRunning := true, remainingTime := 100,
        intervalActive := true, keepaliveActive := true, statusPollActive := true }))).sent := by
  decide

/-- C2 counter-evidence: on the notification whose trimmed text is
"Batt:garbage" (raw bytes are its UTF-8 encoding), `parseFloat` returns NaN
without throwing, NaN falls through both voltage comparisons, `Math.round`
keeps it NaN, and the handler overwrites the battery telemetry with "NaN%" —
it does not leave the battery value unchanged. -/
theorem battGarbageChangesTelemetry :
    (handleNotification "Batt:garbage"
      [0x42, 0x61, 0x74, 0x74, 0x3a, 0x67, 0x61, 0x72, 0x62, 0x61, 0x67, 0x65]
      { battery := some "50%", charging := none }).battery = some "NaN%" ∧
    (handleNotification "Batt:garbage"
      [0x42, 0x61, 0x74, 0x74, 0x3a, 0x67, 0x61, 0x72, 0x62, 0x61, 0x67, 0x65]
      { battery := some "50%", charging := none }).battery ≠ some "50%" := by
  decide

set_option maxRecDepth 10000 in
/-- C6: from a connected idle state with strength 5 and timer 4 minutes,
pressing start sets `isRunning` and `remainingSeconds = 240`; every countdown
tick with more than one second left decrements the remaining time by exactly
one without touching `isRunning` or sending anything; and after 240 ticks
the session has auto-stopped: `isRunning` is false and the deactivate command
"0\n" has been sent exactly once. -/
theorem startRunCountdown :
    (handleStart { idleDisconnectedSt with connectedDevice := some (), timer := 4 }).isRunning = true ∧
    (handleStart { idleDisconnectedSt with connectedDevice := some (), timer := 4 }).remainingTime = 240 ∧
    (∀ s l : AppSt, l.intervalActive = true → 1 < l.remainingTime →
      (tick s l).remainingTime = l.remainingTime - 1 ∧
      (tick s l).isRunning = l.isRunning ∧ (tick s l).sent = l.sent) ∧
    (Nat.iterate (tick (startCountdown (handleStart { idleDisconnectedSt with connectedDevice := some (), timer := 4 }))) 240
      (startCountdown (handleStart { idleDisconnectedSt with connectedDevice := some (), timer := 4 }))).isRunning = false ∧
    (Nat.iterate (tick (startCountdown (handleStart { idleDisconnectedSt with connectedDevice := some (), timer := 4 }))) 240
      (startCountdown (handleStart { idleDisconnectedSt with connectedDevice := some (), timer := 4 }))).sent.count "0\n" = 1 := by
  refine ⟨by decide, by decide, ?_, by decide, by decide⟩
  intro s l h1 h2
  have h3 : ¬ l.remainingTime ≤ 1 := by omega
  simp [tick, h1, h3]

/-- Witness for C6's general tick property at a concrete state with 7
seconds remaining. -/
theorem startRunCountdown_witness :
    (tick idleDisconnectedSt { idleDisconnectedSt with intervalActive := true, remainingTime := 7 }).remainingTime = 6 := by
  have h := (startRunCountdown.2.2.1 idleDisconnectedSt
    { idleDisconnectedSt with intervalActive := true, remainingTime := 7 } rfl (by decide)).1
  simpa using h

/-- C7: the battery model is the piecewise map — 100 at or above 3.95 V, 0 at
or below 2.5 V, and otherwise the half-away-from-zero rounding of
`100 * (v - 2.5) / (3.95 - 2.5)` (on this positive middle range JavaScript's
`Math.round`, floor of the value plus one half, coincides with rounding half
away from zero); in particular the midpoint 3.225 V maps to 50.  The
embedding is a plain function of the voltage, reflecting that the source
computes from its argument and constants with no side effects. -/
theorem batteryPercentagePiecewise (v : ℚ) :
    ((3.95 : ℚ) ≤ v → calculateBatteryPercentage (JSNum.num v) = JSNum.num 100) ∧
    (v ≤ (2.5 : ℚ) → calculateBatteryPercentage (JSNum.num v) = JSNum.num 0) ∧
    ((2.5 : ℚ) < v → v < (3.95 : ℚ) →
      calculateBatteryPercentage (JSNum.num v) =
        JSNum.num ((roundHalfAwayFromZero (100 * (v - 2.5) / (3.95 - 2.5)) : ℤ) : ℚ)) ∧
    calculateBatteryPercentage (JSNum.num 3.225) = JSNum.num 50 := by
  refine ⟨?_, ?_, ?_, ?_⟩
  · intro h
    simp [calculateBatteryPercentage, jsGe, BATTERY_FULL_VOLTAGE, h]
  · intro h
    have hge : ¬ (3.95 : ℚ) ≤ v := by linarith
    simp [calculateBatteryPercentage, jsGe, jsLe, BATTERY_FULL_VOLTAGE, BATTERY_EMPTY_VOLTAGE, hge, h]
  · intro h1 h2
    have hge : ¬ (3.95 : ℚ) ≤ v := not_le.mpr h2
    have hle : ¬ v ≤ (2.5 : ℚ) := not_le.mpr h1
    have h45 : ((3.95 : ℚ) - 2.5) ≠ 0 := by norm_num
    have harg : (0 : ℚ) ≤ 100 * (v - 2.5) / (3.95 - 2.5) := by
      apply div_nonneg
      · linarith
      · norm_num
    simp only [calculateBatteryPercentage, jsGe, jsLe, BATTERY_FULL_VOLTAGE,
      BATTERY_EMPTY_VOLTAGE, jsSub, jsDiv, jsMul, jsRound, hge, hle,
      decide_eq_true_eq, if_neg, if_false]
    rw [if_neg h45]
    show JSNum.num ((⌊(v - 2.5) / ((3.95 : ℚ) - 2.5) * 100 + 1/2⌋ : ℤ) : ℚ) =
      JSNum.num ((roundHalfAwayFromZero (100 * (v - 2.5) / (3.95 - 2.5)) : ℤ) : ℚ)
    unfold roundHalfAwayFromZero
    rw [if_pos harg]
    have hcomm : (v - 2.5) / ((3.95 : ℚ) - 2.5) * 100 = 100 * (v - 2.5) / (3.95 - 2.5) := by
      ring
    rw [hcomm]
  · have h1 : (2.5 : ℚ) < 3.225 := by norm_num
    have h2 : (3.225 : ℚ) < 3.95 := by norm_num
    have hge : ¬ (3.95 : ℚ) ≤ (3.225 : ℚ) := by norm_num
    have hle : ¬ (3.225 : ℚ) ≤ (2.5 : ℚ) := by norm_num
    have h45 : ((3.95 : ℚ) - 2.5) ≠ 0 := by norm_num
    simp only [calculateBatteryPercentage, jsGe, jsLe, BATTERY_FULL_VOLTAGE,
      BATTERY_EMPTY_VOLTAGE, jsSub, jsDiv, jsMul, jsRound, hge, hle,
      decide_eq_true_eq, if_neg, if_false]
    rw [if_neg h45]
    show JSNum.num ((⌊((3.225 : ℚ) - 2.5) / ((3.95 : ℚ) - 2.5) * 100 + 1/2⌋ : ℤ) : ℚ) =
      JSNum.num 50
    have hval : ((3.225 : ℚ) - 2.5) / ((3.95 : ℚ) - 2.5) * 100 + 1/2 = 101/2 := by norm_num
    rw [hval]
    have hfloor : ⌊(101/2 : ℚ)⌋ = (50 : ℤ) := by
      rw [Int.floor_eq_iff]
      norm_num
    rw [hfloor]
    norm_num

/-- Witness for C7 at the concrete voltages 4 (full), 2 (empty) and 3
(interpolated). -/
theorem batteryPercentagePiecewise_witness :
    calculateBatteryPercentage (JSNum.num 4) = JSNum.num 100 ∧
    calculateBatteryPercentage (JSNum.num 2) = JSNum.num 0 ∧
    calculateBatteryPercentage (JSNum.num 3) =
      JSNum.num ((roundHalfAwayFromZero (100 * (3 - 2.5) / (3.95 - 2.5)) : ℤ) : ℚ) := by
  exact ⟨(batteryPercentagePiecewise 4).1 (by norm_num),
    (batteryPercentagePiecewise 2).2.1 (by norm_num),
    (batteryPercentagePiecewise 3).2.2.1 (by norm_num) (by norm_num)⟩

/-- C8: every raw notification frame of length at least 3 whose first two
bytes are 0x75 0x01 sets the charging value to not-charging on third byte
0x30 and to charging on 0x31, and leaves the charging telemetry unchanged on
any other third byte (an unrecognized-status event); the decoded text and the
prior telemetry are otherwise irrelevant to the charging field. -/
theorem chargingFrameDecode (decoded : String) (raw : List ℕ) (t : Telemetry)
    (h3 : 3 ≤ raw.length) (h0 : raw.getD 0 0 = 0x75) (h1 : raw.getD 1 0 = 0x01) :
    (handleNotification decoded raw t).charging =
      (if raw.getD 2 0 = 0x30 then some "Not Charging"
       else if raw.getD 2 0 = 0x31 then some "Charging"
       else t.charging) := by
  unfold handleNotification chargingBranch
  rw [if_pos ⟨h3, h0, h1⟩]
  split_ifs <;> simp [battBranch_charging]

/-- Witness for C8 at the three concrete frames from the specification:
`[0x75,0x01,0x30]`, `[0x75,0x01,0x31]` and `[0x75,0x01,0x39]`. -/
theorem chargingFrameDecode_witness :
    (handleNotification "" [0x75, 0x01, 0x30] { battery := none, charging := none }).charging = some "Not Charging" ∧
    (handleNotification "" [0x75, 0x01, 0x31] { battery := none, charging := none }).charging = some "Charging" ∧
    (handleNotification "" [0x75, 0x01, 0x39] { battery := none, charging := none }).charging = none := by
  refine ⟨?_, ?_, ?_⟩
  · have h := chargingFrameDecode "" [0x75, 0x01, 0x30] { battery := none, charging := none }
      (by decide) (by decide) (by decide)
    simpa using h
  · have h := chargingFrameDecode "" [0x75, 0x01, 0x31] { battery := none, charging := none }
      (by decide) (by decide) (by decide)
    simpa using h
  · have h := chargingFrameDecode "" [0x75, 0x01, 0x39] { battery := none, charging := none }
      (by decide) (by decide) (by decide)
    simpa using h

/-- C9 counterexample: the strength handler does not clamp its input into
1..9 — called with 42 it stores 42, which lies outside the claimed range. -/
theorem strengthChangeNoClamp :
    ¬(1 ≤ (handleStrengthChange 42 idleDisconnectedSt).strength ∧
      (handleStrengthChange 42 idleDisconnectedSt).strength ≤ 9) := by
  decide

/-- C9 amended: `handleStrengthChange` stores the given value unchanged
(no clamping happens inside the handler) and, exactly when a session is
running and a device is connected, additionally sends the value as a strength
command; it never modifies `isRunning` or `remainingSeconds`.  The 1..9 range
is enforced at its call sites: the decrement button passes
`max 1 (strength - 1)`, the increment button passes `min 9 (strength + 1)`,
both of which stay inside 1..9 whenever the current strength is. -/
theorem strengthChangeBehavior (v : ℤ) (st : AppSt) :
    (handleStrengthChange v st).strength = v ∧
    (handleStrengthChange v st).isRunning = st.isRunning ∧
    (handleStrengthChange v st).remainingTime = st.remainingTime ∧
    ((st.isRunning && st.connectedDevice.isSome) = true →
      (handleStrengthChange v st).sent = st.sent ++ [toString v ++ "\n"]) ∧
    ((st.isRunning && st.connectedDevice.isSome) = false →
      (handleStrengthChange v st).sent = st.sent) ∧
    (∀ s : ℤ, 1 ≤ s → s ≤ 9 →
      1 ≤ strengthDecArg s ∧ strengthDecArg s ≤ 9 ∧
      1 ≤ strengthIncArg s ∧ strengthIncArg s ≤ 9) := by
  refine ⟨rfl, rfl, rfl, ?_, ?_, ?_⟩
  · intro h
    simp [handleStrengthChange, h]
  · intro h
    simp [handleStrengthChange, h]
  · intro s hs1 hs2
    unfold strengthDecArg strengthIncArg
    refine ⟨le_max_left 1 (s - 1), max_le (by norm_num) (by omega),
      le_min (by norm_num) (by omega), min_le_left 9 (s + 1)⟩

/-- Witness for C9's amended claim: a running connected state sends "7\n" on
value 7, and the decrement button's argument stays at least 1 from strength
5. -/
theorem strengthChangeBehavior_witness :
    (handleStrengthChange 7
      { idleDisconnectedSt with isRunning := true, connectedDevice := some () }).sent = ["7\n"] ∧
    1 ≤ strengthDecArg 5 := by
  have h := strengthChangeBehavior 7
    { idleDisconnectedSt with isRunning := true, connectedDevice := some () }
  exact ⟨(h.2.2.2.1 rfl).trans (by decide), (h.2.2.2.2.2 5 (by norm_num) (by norm_num)).1⟩

end PulseLibre
